import Mathlib

/-!
Shallow embedding of `src/mongo2.py` (a Flask chatbot backend routing
natural-language queries to MongoDB collections and an LLM API).

External collaborators (MongoDB driver, rapidfuzz scoring, the `re` module,
`dateparser`, the OpenAI client, wall-clock time) are modelled as explicit
parameters gathered in the `Externals` structure; the control flow around
them is translated directly from the Python source.
-/

/-- Calendar date, modelling a Python `datetime.date` value
(`datetime.utcnow().date()` is passed in as the `today` parameter). -/
structure PyDate where
  year : Nat
  month : Nat
  day : Nat
deriving DecidableEq, Repr

/-- Gregorian leap-year rule, as used by Python `datetime` arithmetic. -/
def isLeapYear (y : Nat) : Bool :=
  y % 4 == 0 && (y % 100 != 0 || y % 400 == 0)

/-- Number of days in a month of the proleptic Gregorian calendar. -/
def daysInMonth (y m : Nat) : Nat :=
  if m = 2 then (if isLeapYear y then 29 else 28)
  else if m = 4 ∨ m = 6 ∨ m = 9 ∨ m = 11 then 30
  else 31

/-- Model of `date - timedelta(days=1)` on a valid Gregorian date. -/
def prevDay (d : PyDate) : PyDate :=
  if 1 < d.day then ⟨d.year, d.month, d.day - 1⟩
  else if 1 < d.month then ⟨d.year, d.month - 1, daysInMonth d.year (d.month - 1)⟩
  else ⟨d.year - 1, 12, 31⟩

/-- Model of `date + timedelta(days=1)` on a valid Gregorian date
(used for the end of the 24-hour filter window). -/
def nextDay (d : PyDate) : PyDate :=
  if d.day < daysInMonth d.year d.month then ⟨d.year, d.month, d.day + 1⟩
  else if d.month < 12 then ⟨d.year, d.month + 1, 1⟩
  else ⟨d.year + 1, 1, 1⟩

/-- ASCII lowercasing of one character, as Python `str.lower` does on the
ASCII range (the only range the source's keywords and names use). -/
def charLower (c : Char) : Char :=
  if 65 ≤ c.toNat ∧ c.toNat ≤ 90 then Char.ofNat (c.toNat + 32) else c

/-- Model of Python `str.lower()`. -/
def pyLower (s : String) : String :=
  ⟨s.data.map charLower⟩

/-- Is `c` one of the whitespace characters Python `str.strip()` removes? -/
def isPySpace (c : Char) : Bool :=
  c == ' ' || c == '\t' || c == '\n' || c == '\r' || c == '\x0b' || c == '\x0c'

/-- Model of Python `str.strip()`: drop whitespace from both ends. -/
def pyStrip (s : String) : String :=
  ⟨((s.data.dropWhile isPySpace).reverse.dropWhile isPySpace).reverse⟩

/-- Does the character list `needle` occur at the very start of `hay`? -/
def startsWithChars : List Char → List Char → Bool
  | [], _ => true
  | _ :: _, [] => false
  | a :: as, b :: bs => a == b && startsWithChars as bs

/-- Does the character list `needle` occur contiguously anywhere in `hay`? -/
def hasSubChars (needle : List Char) : List Char → Bool
  | [] => needle.isEmpty
  | c :: rest => startsWithChars needle (c :: rest) || hasSubChars needle rest

/-- Model of the Python substring test `needle in hay` on strings. -/
def strIn (needle hay : String) : Bool :=
  hasSubChars needle.toList hay.toList

/-- The ordered regular-expression pattern list `date_patterns` of
`extract_date_from_query` (day-month-name, month-name-day, numeric
dd-mm-yyyy), kept as the literal pattern strings of the source. -/
def date_patterns : List String :=
  ["\\b\\d\x7b1,2\x7d[st|nd|rd|th]*\\s(?:Jan|Feb|Mar|Apr|May|Jun|Jul|Aug|Sep|Oct|Nov|Dec)[a-z]*\\b",
   "\\b(?:Jan|Feb|Mar|Apr|May|Jun|Jul|Aug|Sep|Oct|Nov|Dec)[a-z]*\\s\\d\x7b1,2\x7d\\b",
   "\\b\\d\x7b1,2\x7d-\\d\x7b1,2\x7d-\\d\x7b4\x7d\\b"]

/-- The `for pattern in date_patterns` loop of `extract_date_from_query`:
`search p q` models `re.search(p, q, re.IGNORECASE)` returning the matched
substring (`match.group(0)`), and `parse` models
`dateparser.parse(...).date()` (with `none` when parsing fails).  On the
first pattern whose search succeeds the function returns the parse result
(even when that is `none`); later patterns are not tried. -/
def tryPatterns (search : String → String → Option String)
    (parse : String → Option PyDate) (query : String) : List String → Option PyDate
  | [] => none
  | p :: rest =>
    match search p query with
    | some m => parse m
    | none => tryPatterns search parse query rest

/-- Embedding of `extract_date_from_query`: keyword checks for
"today"/"yesterday"/"this month" on the lowercased query, in that order,
then the regex-pattern phase. -/
def extract_date_from_query (today : PyDate)
    (search : String → String → Option String) (parse : String → Option PyDate)
    (query : String) : Option PyDate :=
  let yesterday := prevDay today
  let query_lower := pyLower query
  if strIn "today" query_lower then some today
  else if strIn "yesterday" query_lower then some yesterday
  else if strIn "this month" query_lower then some { today with day := 1 }
  else tryPatterns search parse query date_patterns

/-- The MongoDB date filter built by `create_date_filter_from_query`:
a disjunction over the four timestamp fields, each restricted to
`[start_of_day, end_of_day)`. -/
structure DateFilter where
  orFields : List String
  startOfDay : PyDate
  endOfDay : PyDate
deriving DecidableEq, Repr

/-- Embedding of `create_date_filter_from_query`: `none` when no date is
extracted, otherwise the 24-hour window starting at the extracted date's
midnight, disjoined over the four known timestamp field names. -/
def create_date_filter_from_query (today : PyDate)
    (search : String → String → Option String) (parse : String → Option PyDate)
    (query : String) : Option DateFilter :=
  match extract_date_from_query today search parse query with
  | none => none
  | some d =>
    some ⟨["updatedAt", "startTimestamp", "breakdownStartDateTime", "CreatedAt"],
          d, nextDay d⟩

/-- The static keyword-to-collection table `collection_mapping` of
`identify_collections`, in source (insertion) order. -/
def collection_mapping : List (String × String) :=
  [("alarm", "alarmHistory"),
   ("oee", "oeelog1"),
   ("downtime", "downtimes"),
   ("maintenance", "maintenanceschedules"),
   ("alert", "alerts"),
   ("total parts are produced", "oeelog1"),
   ("production data for CN15", "ORG001_CN15_productionData"),
   ("production data for CN14", "ORG001_CN14_productionData"),
   ("quality", "oeelog1"),
   ("availability", "oeelog1"),
   ("performance", "oeelog1"),
   ("task", "maintenanceschedules"),
   ("parameter", "pmc_parameters"),
   ("bit position", "pmc_parameters"),
   ("tool", "tooldetails"),
   ("set life", "tooldetails"),
   ("threshold", "diagnostics"),
   ("planned quantity", "oeelog1"),
   ("defective parts", "oeelog1"),
   ("downtime duration", "oeelog1"),
   ("cycle time", "oeelog1")]

/-- The keyword phase of `identify_collections`: the list comprehension
`[coll for keyword, coll in collection_mapping.items() if keyword in query_lower]`
(duplicates are possible, as in the source). -/
def keywordMatches (query_lower : String) : List String :=
  collection_mapping.filterMap fun kc =>
    if strIn kc.1 query_lower then some kc.2 else none

/-- The score the loop of `identify_collections` sees: `score a b` models
the raw rapidfuzz similarity (0-100), and passing `score_cutoff=50` makes
the library return `0` for similarities below 50. -/
def cutoffScore (score : String → String → ℚ) (a b : String) : ℚ :=
  if score a b < 50 then 0 else score a b

/-- The fuzzy-fallback loop of `identify_collections`: a collection is
appended when its (cutoff-adjusted) score exceeds 50 and it is not already
present. -/
def fuzzyAppend (score : String → String → ℚ) (query_lower : String) :
    List String → List String → List String
  | acc, [] => acc
  | acc, coll :: rest =>
    if 50 < cutoffScore score (pyLower coll) query_lower ∧ coll ∉ acc then
      fuzzyAppend score query_lower (acc ++ [coll]) rest
    else fuzzyAppend score query_lower acc rest

/-- Embedding of `identify_collections`: keyword matches on the lowercased,
stripped query, then fuzzy-matched collection names from
`db.list_collection_names()` (the `allCollections` parameter), returning
`none` when the combined list is empty. -/
def identify_collections (score : String → String → ℚ)
    (allCollections : List String) (query : String) : Option (List String) :=
  let query_lower := pyStrip (pyLower query)
  let matched := fuzzyAppend score query_lower (keywordMatches query_lower) allCollections
  if matched.isEmpty then none else some matched

/-- A BSON value as it appears in a fetched document: either an `ObjectId`
(carrying its hex-string rendering, i.e. what Python `str(value)` yields)
or any other value, represented by its rendering. -/
inductive BVal where
  | oid (s : String)
  | prim (s : String)
deriving DecidableEq, Repr

/-- The per-value coercion of `fetch_documents_from_multiple_collections`:
`str(value) if isinstance(value, ObjectId) else value`. -/
def coerceVal : BVal → BVal
  | .oid s => .prim s
  | .prim s => .prim s

/-- Rendering of a (coerced) value inside the f-string `- **{key}**: {value}`. -/
def BVal.render : BVal → String
  | .oid s => s
  | .prim s => s

/-- A raw document returned by `collection.find(...)`: ordered field/value pairs. -/
def RawDoc := List (String × BVal)
deriving DecidableEq, Repr

/-- Per-collection entry of the `all_results` dictionary: either the
structured document list or the `"No data found in '...'."` string. -/
inductive FetchResult where
  | docs (l : List (List (String × BVal)))
  | msg (s : String)
deriving DecidableEq, Repr

/-- Embedding of `fetch_documents_from_multiple_collections`.  `fetch c f l`
models `db[c].find(f or {}).sort("CreatedAt", -1).limit(l)` together with
cursor iteration: `Except.error` models an exception raised while fetching.
The source has no try/except here, so an error aborts the loop and
propagates; the second component records which collections a fetch was
attempted on (in order), for effect accounting. -/
def fetch_documents_from_multiple_collections
    (fetch : String → Option DateFilter → Nat → Except String (List RawDoc))
    (filter_conditions : Option DateFilter) (limit : Nat) :
    List String → Except String (List (String × FetchResult)) × List String
  | [] => (.ok [], [])
  | collection_name :: rest =>
    match fetch collection_name filter_conditions limit with
    | .error e => (.error e, [collection_name])
    | .ok documents =>
      let structured_data : List (List (String × BVal)) :=
        documents.map fun doc => doc.map fun kv => (kv.1, coerceVal kv.2)
      let res :=
        if structured_data.isEmpty then
          FetchResult.msg ("No data found in '" ++ collection_name ++ "'.")
        else FetchResult.docs structured_data
      match fetch_documents_from_multiple_collections fetch filter_conditions limit rest with
      | (r, att) => (r.map (fun l => (collection_name, res) :: l), collection_name :: att)

/-- One line of the context block for a single document:
`- **{key}**: {value}` pairs joined by newlines. -/
def renderDoc (doc : List (String × BVal)) : String :=
  String.intercalate "\n" (doc.map fun kv => "- **" ++ kv.1 ++ "**: " ++ kv.2.render)

/-- Context-block text for one collection's fetch result. -/
def renderResult : FetchResult → String
  | .msg s => s ++ "\n"
  | .docs l => String.intercalate "\n" (l.map renderDoc)

/-- The `document_text` accumulation loop of `generate_chatbot_response`. -/
def renderDocsText (results : List (String × FetchResult)) : String :=
  results.foldl (fun acc cr => acc ++ "\n🔹 **" ++ cr.1 ++ "**:\n" ++ renderResult cr.2) ""

/-- A record inserted into the `query_responses` log collection. -/
structure LogRecord where
  query : String
  response : String
  timestamp : Nat
deriving DecidableEq, Repr

/-- Observable side effects of handling one request: collections a find was
attempted on, number of LLM API calls made, and log records inserted. -/
structure Effects where
  fetched : List String
  llmCalls : Nat
  inserted : List LogRecord
deriving DecidableEq, Repr

/-- The external collaborators of the service, passed explicitly:
the database's collection list and per-collection fetch behaviour, the
rapidfuzz scorer, the regex engine, the date parser, the LLM client,
the current UTC date/time, and the pre-existing contents of the
`query_responses` log collection. -/
structure Externals where
  allCollections : List String
  score : String → String → ℚ
  search : String → String → Option String
  parse : String → Option PyDate
  fetch : String → Option DateFilter → Nat → Except String (List RawDoc)
  llm : String → Except String String
  today : PyDate
  nowTs : Nat
  log : List LogRecord

/-- Embedding of `generate_chatbot_response`: identify collections, build
the date filter, fetch documents (errors propagate — `Except.error`),
assemble the prompt and call the LLM; LLM failures are caught and turned
into an `"Error generating response: ..."` answer string. -/
def generate_chatbot_response (ext : Externals) (user_query : String) :
    Except String String × Effects :=
  match identify_collections ext.score ext.allCollections user_query with
  | none => (.ok "Sorry, I couldn't find relevant collections.", ⟨[], 0, []⟩)
  | some collections =>
    let date_filter := create_date_filter_from_query ext.today ext.search ext.parse user_query
    match fetch_documents_from_multiple_collections ext.fetch date_filter 50 collections with
    | (.error e, att) => (.error e, ⟨att, 0, []⟩)
    | (.ok documents, att) =>
      let document_text := renderDocsText documents
      let prompt := "User Query: " ++ user_query ++ "\n\nContext from MongoDB:\n"
        ++ document_text
        ++ "\n\nAssistant: Provide a well-formed paragraph response that is clear and conversational."
      match ext.llm prompt with
      | .ok content => (.ok (pyStrip content), ⟨att, 1, []⟩)
      | .error e => (.ok ("Error generating response: " ++ e), ⟨att, 1, []⟩)

/-- Embedding of the `POST /get-answer` handler `get_answer`.  The request
body's `query` field is `body : Option String`; the result is the HTTP
status, the JSON object of the response body as key/value pairs, and the
side effects.  A propagated exception is caught by the outer try/except
and reported as HTTP 500. -/
def get_answer (ext : Externals) (body : Option String) :
    Nat × List (String × String) × Effects :=
  match body with
  | none => (400, [("error", "Query is missing")], ⟨[], 0, []⟩)
  | some user_query =>
    if user_query = "" then (400, [("error", "Query is missing")], ⟨[], 0, []⟩)
    else
      match generate_chatbot_response ext user_query with
      | (.error e, eff) => (500, [("error", e)], eff)
      | (.ok response, eff) =>
        (200, [("query", user_query), ("answer", response)],
         { eff with inserted := [⟨user_query, response, ext.nowTs⟩] })

/-! Concrete fixtures used by witnesses and counterexamples. -/

/-- A similarity scorer that gives every pair similarity 0. -/
def zeroScore : String → String → ℚ := fun _ _ => 0

/-- A similarity scorer that gives every pair similarity 100. -/
def hiScore : String → String → ℚ := fun _ _ => 100

/-- A regex engine in which no pattern matches. -/
def noSearch : String → String → Option String := fun _ _ => none

/-- A date parser that always fails. -/
def noParse : String → Option PyDate := fun _ => none

/-- A sample current UTC date. -/
def d0 : PyDate := ⟨2026, 10, 12⟩

/-- A regex engine in which every pattern matches: the first date pattern
yields the substring "32nd Foo" and any other pattern yields "5 Mar". -/
def searchW : String → String → Option String :=
  fun p _ => if p = date_patterns.getD 0 "" then some "32nd Foo" else some "5 Mar"

/-- A date parser that fails exactly on the substring "32nd Foo". -/
def parseW : String → Option PyDate :=
  fun s => if s = "32nd Foo" then none else some d0

/-- A database in which fetching from collection "A" raises an exception
("boom") and fetching from any other collection returns one document. -/
def exFetch : String → Option DateFilter → Nat → Except String (List RawDoc) :=
  fun c _ _ => if c = "A" then Except.error "boom" else Except.ok [[("x", BVal.prim "1")]]

/-- Concrete externals: no fuzzy collections, no regex matches, empty fetch
results, an LLM that answers "fresh-answer", and a log collection that
already holds a record for the query "alarm". -/
def exA : Externals :=
  { allCollections := []
    score := zeroScore
    search := noSearch
    parse := noParse
    fetch := fun _ _ _ => .ok []
    llm := fun _ => .ok "fresh-answer"
    today := d0
    nowTs := 7
    log := [⟨"alarm", "cached-answer", 5⟩] }

/-- Externals for the no-matching-collection scenario: one collection in
the database, all similarity scores 0. -/
def exN : Externals :=
  { exA with allCollections := ["alarmHistory"] }

/-! Helper lemmas. -/

/-- The pattern loop returns the parse of the first successful search. -/
theorem tryPatterns_eq_findSome (search : String → String → Option String)
    (parse : String → Option PyDate) (query : String) :
    ∀ l : List String,
      tryPatterns search parse query l = (l.findSome? fun p => search p query).bind parse
  | [] => by simp [tryPatterns]
  | p :: rest => by
    cases h : search p query with
    | some m => simp [tryPatterns, h, List.findSome?_cons]
    | none =>
      simp [tryPatterns, h, List.findSome?_cons,
        tryPatterns_eq_findSome search parse query rest]

/-- Elements already accumulated survive the fuzzy-fallback loop. -/
theorem mem_fuzzyAppend_of_mem (score : String → String → ℚ) (ql x : String) :
    ∀ (cs acc : List String), x ∈ acc → x ∈ fuzzyAppend score ql acc cs
  | [], _, hx => hx
  | coll :: rest, acc, hx => by
    simp only [fuzzyAppend]
    split
    · exact mem_fuzzyAppend_of_mem score ql x rest _ (List.mem_append_left _ hx)
    · exact mem_fuzzyAppend_of_mem score ql x rest _ hx

/-- Raw similarity exceeds 50 whenever the cutoff-adjusted one does. -/
theorem raw_gt_of_cutoff_gt {score : String → String → ℚ} {a b : String}
    (h : 50 < cutoffScore score a b) : 50 < score a b := by
  unfold cutoffScore at h
  by_cases hr : score a b < 50
  · rw [if_pos hr] at h
    exact absurd h (by norm_num)
  · rwa [if_neg hr] at h

/-- Everything the fuzzy-fallback loop produces was either already
accumulated or has raw similarity above 50. -/
theorem mem_fuzzyAppend_cases (score : String → String → ℚ) (ql x : String) :
    ∀ (cs acc : List String), x ∈ fuzzyAppend score ql acc cs →
      x ∈ acc ∨ 50 < score (pyLower x) ql
  | [], _, h => .inl h
  | coll :: rest, acc, h => by
    simp only [fuzzyAppend] at h
    by_cases hc : 50 < cutoffScore score (pyLower coll) ql ∧ coll ∉ acc
    · rw [if_pos hc] at h
      rcases mem_fuzzyAppend_cases score ql x rest _ h with hmem | hs
      · rcases List.mem_append.1 hmem with h1 | h2
        · exact .inl h1
        · have hx : x = coll := by simpa using h2
          subst hx
          exact .inr (raw_gt_of_cutoff_gt hc.1)
      · exact .inr hs
    · rw [if_neg hc] at h
      exact mem_fuzzyAppend_cases score ql x rest acc h

/-- The fuzzy-fallback loop adds nothing when every raw similarity is ≤ 50. -/
theorem fuzzyAppend_eq_of_le (score : String → String → ℚ) (ql : String) :
    ∀ (cs acc : List String), (∀ c ∈ cs, score (pyLower c) ql ≤ 50) →
      fuzzyAppend score ql acc cs = acc
  | [], _, _ => rfl
  | coll :: rest, acc, h => by
    have h50 : ¬ (50 < cutoffScore score (pyLower coll) ql ∧ coll ∉ acc) := by
      rintro ⟨hgt, -⟩
      exact absurd (raw_gt_of_cutoff_gt hgt) (not_lt.2 (h coll (by simp)))
    simp only [fuzzyAppend, if_neg h50]
    exact fuzzyAppend_eq_of_le score ql rest acc (fun c hc => h c (by simp [hc]))

/-- The keyword phase yields nothing when no keyword occurs in the query. -/
theorem keywordMatches_eq_nil {ql : String}
    (h : ∀ kc ∈ collection_mapping, strIn kc.1 ql = false) :
    keywordMatches ql = [] := by
  rw [keywordMatches, List.filterMap_eq_nil_iff]
  intro kc hkc
  simp [h kc hkc]

/-- No keyword match and no fuzzy score above 50 means no collection. -/
theorem identify_collections_eq_none (score : String → String → ℚ)
    (cs : List String) (query : String)
    (hk : ∀ kc ∈ collection_mapping, strIn kc.1 (pyStrip (pyLower query)) = false)
    (hs : ∀ c ∈ cs, score (pyLower c) (pyStrip (pyLower query)) ≤ 50) :
    identify_collections score cs query = none := by
  simp only [identify_collections]
  rw [keywordMatches_eq_nil hk, fuzzyAppend_eq_of_le score _ cs [] hs]
  rfl

/-! Claim theorems. -/

/-- C5: a query containing "today" (any case) yields the current UTC date;
one containing "yesterday" but not "today" yields the current UTC date
minus one day; one containing "this month" but neither of the others
yields the first of the current month — the keywords are checked in that
priority order with the first match winning. -/
theorem c5_keyword_dates (today : PyDate) (search : String → String → Option String)
    (parse : String → Option PyDate) (query : String) :
    (strIn "today" (pyLower query) = true →
      extract_date_from_query today search parse query = some today)
    ∧ (strIn "today" (pyLower query) = false →
       strIn "yesterday" (pyLower query) = true →
      extract_date_from_query today search parse query = some (prevDay today))
    ∧ (strIn "today" (pyLower query) = false →
       strIn "yesterday" (pyLower query) = false →
       strIn "this month" (pyLower query) = true →
      extract_date_from_query today search parse query = some { today with day := 1 }) := by
  refine ⟨fun h1 => ?_, fun h1 h2 => ?_, fun h1 h2 h3 => ?_⟩ <;>
    simp [extract_date_from_query, *]

/-- C5 witness: concrete queries exercise all three keyword branches. -/
theorem c5_witness :
    extract_date_from_query d0 noSearch noParse "Show TODAY report" = some d0
    ∧ extract_date_from_query d0 noSearch noParse "give yesterday data" = some (prevDay d0)
    ∧ extract_date_from_query d0 noSearch noParse "sum for this month"
        = some { d0 with day := 1 } :=
  ⟨(c5_keyword_dates d0 noSearch noParse "Show TODAY report").1 (by rfl),
   (c5_keyword_dates d0 noSearch noParse "give yesterday data").2.1 (by rfl) (by rfl),
   (c5_keyword_dates d0 noSearch noParse "sum for this month").2.2 (by rfl) (by rfl) (by rfl)⟩

/-- C6: when no date keyword occurs, the result of date extraction is the
parse of the first pattern match only (so a later pattern is never
consulted, even when parsing the first match fails), and when additionally
no pattern matches the extraction returns no date. -/
theorem c6_first_pattern_only (today : PyDate)
    (search : String → String → Option String) (parse : String → Option PyDate)
    (query : String)
    (h1 : strIn "today" (pyLower query) = false)
    (h2 : strIn "yesterday" (pyLower query) = false)
    (h3 : strIn "this month" (pyLower query) = false) :
    extract_date_from_query today search parse query
      = (date_patterns.findSome? fun p => search p query).bind parse
    ∧ ((∀ p ∈ date_patterns, search p query = none) →
      extract_date_from_query today search parse query = none) := by
  have hfirst : extract_date_from_query today search parse query
      = (date_patterns.findSome? fun p => search p query).bind parse := by
    simp [extract_date_from_query, h1, h2, h3, tryPatterns_eq_findSome]
  refine ⟨hfirst, fun hnone => ?_⟩
  rw [hfirst, List.findSome?_eq_none_iff.2 hnone]
  rfl

/-- C6 witness: the first pattern matches "32nd Foo", whose parse fails, so
extraction returns no date even though every later pattern would match and
parse successfully. -/
theorem c6_witness :
    extract_date_from_query d0 searchW parseW "machine stats" = none := by
  rw [(c6_first_pattern_only d0 searchW parseW "machine stats" rfl rfl rfl).1]
  rfl

/-- C8: a request with a missing or empty query field gets HTTP 400 with an
error field, with no fetch, no LLM call and no log insert. -/
theorem c8_empty_query_400 (ext : Externals) :
    get_answer ext none = (400, [("error", "Query is missing")], ⟨[], 0, []⟩)
    ∧ get_answer ext (some "") = (400, [("error", "Query is missing")], ⟨[], 0, []⟩) :=
  ⟨rfl, rfl⟩

/-- C1 counterexample: the query "production data for CN15" contains the
mapping key "production data for CN15" verbatim, yet `identify_collections`
returns no collection at all (with an empty database collection list), so
the mapped collection `ORG001_CN15_productionData` is not included: the key
holds uppercase characters and is compared against the lowercased query. -/
theorem c1_counterexample :
    ("production data for CN15", "ORG001_CN15_productionData") ∈ collection_mapping
    ∧ strIn "production data for CN15" "production data for CN15" = true
    ∧ identify_collections zeroScore [] "production data for CN15" = none :=
  ⟨by decide, by rfl, by rfl⟩

/-- C1 (amended): for every query whose lowercased, stripped form contains
a key of the static mapping table verbatim, the returned collection set
includes that key's mapped collection. -/
theorem c1_keyword_maps (score : String → String → ℚ) (allCollections : List String)
    (query k c : String) (hk : (k, c) ∈ collection_mapping)
    (hq : strIn k (pyStrip (pyLower query)) = true) :
    ∃ l, identify_collections score allCollections query = some l ∧ c ∈ l := by
  have hc : c ∈ keywordMatches (pyStrip (pyLower query)) := by
    rw [keywordMatches, List.mem_filterMap]
    exact ⟨(k, c), hk, by simp [hq]⟩
  have hm : c ∈ fuzzyAppend score (pyStrip (pyLower query))
      (keywordMatches (pyStrip (pyLower query))) allCollections :=
    mem_fuzzyAppend_of_mem score _ c allCollections _ hc
  have hne : (fuzzyAppend score (pyStrip (pyLower query))
      (keywordMatches (pyStrip (pyLower query))) allCollections).isEmpty = false := by
    rcases he : (fuzzyAppend score (pyStrip (pyLower query))
        (keywordMatches (pyStrip (pyLower query))) allCollections).isEmpty with _ | _
    · rfl
    · rw [List.isEmpty_iff] at he
      rw [he] at hm
      cases hm
  refine ⟨_, ?_, hm⟩
  simp only [identify_collections, hne]
  rfl

/-- C1 witness: the query "alarm status" contains the key "alarm", and the
returned collection set contains `alarmHistory`. -/
theorem c1_witness :
    "alarmHistory" ∈ (identify_collections zeroScore [] "alarm status").getD [] := by
  obtain ⟨l, hl, hm⟩ :=
    c1_keyword_maps zeroScore [] "alarm status" "alarm" "alarmHistory" (by decide) (by rfl)
  simpa [hl] using hm

/-- C7: any collection in the result of `identify_collections` that did not
come from the keyword phase has raw similarity score strictly above 50, so
the fuzzy fallback never adds a collection scoring ≤ 50. -/
theorem c7_fuzzy_threshold (score : String → String → ℚ) (cs : List String)
    (q coll : String) (l : List String)
    (hid : identify_collections score cs q = some l) (hmem : coll ∈ l)
    (hkw : coll ∉ keywordMatches (pyStrip (pyLower q))) :
    50 < score (pyLower coll) (pyStrip (pyLower q)) := by
  have hl : l = fuzzyAppend score (pyStrip (pyLower q))
      (keywordMatches (pyStrip (pyLower q))) cs := by
    simp only [identify_collections] at hid
    split at hid
    · cases hid
    · exact (Option.some.inj hid).symm
  rw [hl] at hmem
  rcases mem_fuzzyAppend_cases score _ coll cs _ hmem with h | h
  · exact absurd h hkw
  · exact h

/-- C7 witness: with similarity 100 everywhere, the collection "foo" is
fuzzily added for the query "bar", and its score indeed exceeds 50. -/
theorem c7_witness : (50 : ℚ) < hiScore (pyLower "foo") (pyStrip (pyLower "bar")) :=
  c7_fuzzy_threshold hiScore ["foo"] "bar" "foo" ["foo"] (by rfl) (by decide) (by decide)

/-- C9: a query matching no keyword and no collection name above the fuzzy
threshold gets HTTP 200 with the fixed apology answer, with no document
fetch and no LLM call (only the log insert of the 200 path). -/
theorem c9_no_collection_apology (ext : Externals) (q : String) (h0 : ¬ (q = ""))
    (hk : ∀ kc ∈ collection_mapping, strIn kc.1 (pyStrip (pyLower q)) = false)
    (hs : ∀ c ∈ ext.allCollections, ext.score (pyLower c) (pyStrip (pyLower q)) ≤ 50) :
    get_answer ext (some q)
      = (200,
         [("query", q), ("answer", "Sorry, I couldn't find relevant collections.")],
         ⟨[], 0, [⟨q, "Sorry, I couldn't find relevant collections.", ext.nowTs⟩]⟩) := by
  have hid := identify_collections_eq_none ext.score ext.allCollections q hk hs
  simp [get_answer, generate_chatbot_response, hid, h0]

/-- C9 witness: the query "xyzzy nonsense" with one database collection and
all-zero similarity produces the apology with HTTP 200, no fetch, no LLM
call, and the single log insert. -/
theorem c9_witness :
    get_answer exN (some "xyzzy nonsense")
      = (200,
         [("query", "xyzzy nonsense"),
          ("answer", "Sorry, I couldn't find relevant collections.")],
         ⟨[], 0, [⟨"xyzzy nonsense", "Sorry, I couldn't find relevant collections.",
                   exN.nowTs⟩]⟩) :=
  c9_no_collection_apology exN "xyzzy nonsense" (by decide) (by decide) (by decide)

/-- C2 counterexample: fetching from collection "A" raises an error, and
`fetch_documents_from_multiple_collections` on ["A", "B"] returns that
error instead of a per-collection result map — the error is not caught,
"A" is not mapped to an error string, and "B" is never fetched. -/
theorem c2_counterexample :
    exFetch "A" none 50 = Except.error "boom"
    ∧ fetch_documents_from_multiple_collections exFetch none 50 ["A", "B"]
        = (Except.error "boom", ["A"])
    ∧ (fetch_documents_from_multiple_collections exFetch none 50 ["A", "B"]).1.isOk
        = false :=
  ⟨rfl, rfl, rfl⟩

/-- C2 (amended): the fetch loop has no exception handler, so when every
collection before `c` fetches successfully and fetching from `c` raises an
error, the whole call returns that error and only the collections up to and
including `c` were attempted. -/
theorem c2_fetch_error_propagates
    (fetch : String → Option DateFilter → Nat → Except String (List RawDoc))
    (filt : Option DateFilter) (lim : Nat) (c e : String) :
    ∀ (pre post : List String),
      (∀ x ∈ pre, (fetch x filt lim).isOk = true) →
      fetch c filt lim = Except.error e →
      fetch_documents_from_multiple_collections fetch filt lim (pre ++ c :: post)
        = (Except.error e, pre ++ [c])
  | [], post, _, hc => by
    simp [fetch_documents_from_multiple_collections, hc]
  | p :: pre, post, hp, hc => by
    rcases hfp : fetch p filt lim with e2 | docs
    · have hok := hp p (by simp)
      rw [hfp] at hok
      simp [Except.isOk, Except.toBool] at hok
    · have ih := c2_fetch_error_propagates fetch filt lim c e pre post
        (fun x hx => hp x (by simp [hx])) hc
      simp [fetch_documents_from_multiple_collections, hfp, ih, Except.map]

/-- C2 witness: with "B" fetching fine and "A" erroring, the loop on
["B", "A"] attempts both and returns the error. -/
theorem c2_witness :
    fetch_documents_from_multiple_collections exFetch none 50 ["B", "A"]
      = (Except.error "boom", ["B", "A"]) := by
  have h := c2_fetch_error_propagates exFetch none 50 "A" "boom" ["B"] []
    (by decide) (by rfl)
  simpa using h

/-- C3 counterexample: the log collection already holds a record for the
query "alarm" with stored answer "cached-answer", yet the endpoint calls
the LLM (one call) and returns the freshly generated "fresh-answer" rather
than the stored one. -/
theorem c3_counterexample :
    exA.log = [⟨"alarm", "cached-answer", 5⟩]
    ∧ (get_answer exA (some "alarm")).2.2.llmCalls = 1
    ∧ List.lookup "answer" (get_answer exA (some "alarm")).2.1 = some "fresh-answer"
    ∧ ("fresh-answer" : String) ≠ "cached-answer" :=
  ⟨rfl, rfl, rfl, by decide⟩

/-- C3 (amended): the endpoint never reads the `query_responses` log
collection — its status, response body and effects are identical for any
log contents, so a previously stored record does not short-circuit
generation. -/
theorem c3_no_cache_lookup (ext : Externals) (l1 l2 : List LogRecord)
    (body : Option String) :
    get_answer { ext with log := l1 } body = get_answer { ext with log := l2 } body := by
  cases ext
  rfl

/-- C4 counterexample: a successful request returns HTTP 200 with a body
holding exactly the query and answer fields — there is no timestamp field
in the response. -/
theorem c4_counterexample :
    (get_answer exA (some "alarm")).1 = 200
    ∧ (get_answer exA (some "alarm")).2.1
        = [("query", "alarm"), ("answer", "fresh-answer")]
    ∧ List.lookup "timestamp" (get_answer exA (some "alarm")).2.1 = none :=
  ⟨rfl, rfl, rfl⟩

/-- C4 (amended): every HTTP 200 response body consists of the query and
the answer text only; no timestamp key is present (the timestamp goes only
into the inserted log record). -/
theorem c4_success_body (ext : Externals) (q : String)
    (h : (get_answer ext (some q)).1 = 200) :
    (∃ r, (get_answer ext (some q)).2.1 = [("query", q), ("answer", r)])
    ∧ List.lookup "timestamp" (get_answer ext (some q)).2.1 = none := by
  by_cases hq : q = ""
  · rw [hq] at h
    simp [get_answer] at h
  · rcases hg : generate_chatbot_response ext q with ⟨res, eff⟩
    cases res with
    | error e =>
      rw [show (get_answer ext (some q)).1 = 500 by simp [get_answer, hq, hg]] at h
      cases h
    | ok r =>
      have hb : (get_answer ext (some q)).2.1 = [("query", q), ("answer", r)] := by
        simp [get_answer, hq, hg]
      refine ⟨⟨r, hb⟩, ?_⟩
      rw [hb]
      rfl

/-- C4 witness: the concrete successful request of `exA` has no timestamp
field in its body. -/
theorem c4_witness :
    List.lookup "timestamp" (get_answer exA (some "alarm")).2.1 = none
    ∧ (get_answer exA (some "alarm")).1 = 200 :=
  ⟨(c4_success_body exA "alarm" rfl).2, rfl⟩

/-- C10: every HTTP 200 response is accompanied by exactly one log insert,
whose record holds the request query, the returned answer text and the
current timestamp (this covers the LLM-failure answer and the apology
answer, which also take the 200 path); the 400 path inserts nothing. -/
theorem c10_log_insert (ext : Externals) (body : Option String) :
    ((get_answer ext body).1 = 200 →
      (get_answer ext body).2.2.inserted
        = [⟨body.getD "",
            (((get_answer ext body).2.1.lookup "answer").getD ""), ext.nowTs⟩])
    ∧ ((get_answer ext body).1 = 400 → (get_answer ext body).2.2.inserted = []) := by
  cases body with
  | none => simp [get_answer]
  | some q =>
    by_cases hq : q = ""
    · rw [hq]
      simp [get_answer]
    · rcases hg : generate_chatbot_response ext q with ⟨res, eff⟩
      cases res with
      | error e => simp [get_answer, hq, hg]
      | ok r => simp [get_answer, hq, hg, List.lookup]

/-- C10 witness: the concrete 200 request inserts exactly its one record,
and a 400 request inserts nothing. -/
theorem c10_witness :
    (get_answer exA (some "alarm")).2.2.inserted
      = [⟨(some "alarm").getD "",
          (((get_answer exA (some "alarm")).2.1.lookup "answer").getD ""), exA.nowTs⟩]
    ∧ (get_answer exA none).2.2.inserted = [] :=
  ⟨(c10_log_insert exA (some "alarm")).1 rfl, (c10_log_insert exA none).2 rfl⟩
